import Mathlib

/-
Verification development for the AI-CodeGrader grading orchestration core.
The Python sources under src/ are shallowly embedded: JSON values become an
inductive type, LLM transport becomes an explicit oracle function, pydantic
model validation becomes an Except-valued smart constructor, and the
statistics/aggregation code is transcribed function by function.
-/
namespace AICodeGrader

/-- JSON values as produced by `json.loads`.  Python dicts are modelled as
insertion-ordered association lists (the responses in this repository never
use duplicate keys). -/
inductive Json where
  | null : Json
  | bool (b : Bool) : Json
  | num (q : ℚ) : Json
  | str (s : String) : Json
  | arr (elems : List Json) : Json
  | obj (members : List (String × Json)) : Json

/-- Association-list lookup, first match wins (Python dict lookup). -/
def jLookup : List (String × Json) → String → Option Json
  | [], _ => none
  | (k, v) :: rest, key => if k = key then some v else jLookup rest key

/-- Python `d.get(key)` on a dict; `none` when the key is absent (or the
value is not a dict, which would raise AttributeError in Python and is not
exercised by any modelled call site). -/
def jGet : Json → String → Option Json
  | .obj members, key => jLookup members key
  | _, _ => none

/-- Python `d.get(key, default)`. -/
def jGetD (j : Json) (key : String) (d : Json) : Json := (jGet j key).getD d

/-- Python truthiness of a JSON value. -/
def jTruthy : Json → Bool
  | .null => false
  | .bool b => b
  | .num q => !(q = 0 : Bool)
  | .str s => !(s = "" : Bool)
  | .arr l => !l.isEmpty
  | .obj m => !m.isEmpty

/-- View a JSON value as a list; non-arrays give `[]` (Python iteration over
a non-list would raise, which no modelled call site exercises). -/
def asArr : Json → List Json
  | .arr l => l
  | _ => []

/-- Python `float(x)` restricted to the value shapes that occur in modelled
responses (numbers and booleans; `float` of other shapes raises and is not
exercised). -/
def pyFloat : Json → ℚ
  | .num q => q
  | .bool b => if b then 1 else 0
  | _ => 0

/-- Extract a string value; non-strings give `""` (pydantic would reject a
non-string where the modelled call sites pass one, not exercised). -/
def pyStr : Json → String
  | .str s => s
  | _ => ""

/-- Python `len` on the JSON shapes that support it. -/
def pyLen : Json → ℕ
  | .arr l => l.length
  | .str s => s.length
  | .obj m => m.length
  | _ => 0

/-- Python `key in d` for a JSON dict. -/
def jHasKey (j : Json) (key : String) : Bool := (jGet j key).isSome

/-
Embedding of `prompts/builders.py`, class `ResponseParser`.
`json.loads` is modelled by a fuel-indexed recursive-descent parser over the
character list.  The grammar covers the JSON subset appearing in the grading
responses (objects, arrays, strings with simple escapes, integer and decimal
numbers, literals); exponent-form numbers and \u escapes do not occur in any
modelled response text.
-/

/-- JSON whitespace accepted by `json.loads` between tokens. -/
def isJsonWs (c : Char) : Bool := c = ' ' || c = '\t' || c = '\n' || c = '\r'

/-- Drop leading JSON whitespace. -/
def skipWs : List Char → List Char
  | [] => []
  | c :: rest => if isJsonWs c then skipWs rest else c :: rest

/-- Decimal digit test. -/
def isDigitCh (c : Char) : Bool := '0' ≤ c && c ≤ '9'

/-- Split off a maximal run of decimal digits. -/
def takeDigits : List Char → (List Char × List Char)
  | [] => ([], [])
  | c :: rest =>
    if isDigitCh c then
      let p := takeDigits rest
      (c :: p.1, p.2)
    else ([], c :: rest)

/-- Value of a digit run. -/
def digitsToNat (ds : List Char) : ℕ :=
  ds.foldl (fun acc c => acc * 10 + (c.toNat - '0'.toNat)) 0

/-- One-character JSON string escapes. -/
def escapeChar (e : Char) : Option Char :=
  if e = '"' then some '"'
  else if e = '\\' then some '\\'
  else if e = '/' then some '/'
  else if e = 'n' then some '\n'
  else if e = 't' then some '\t'
  else if e = 'r' then some '\r'
  else if e = 'b' then some '\x08'
  else if e = 'f' then some '\x0c'
  else none

/-- Parse the body of a JSON string after the opening quote; returns the
string characters and the remaining input after the closing quote. -/
def parseStringChars : ℕ → List Char → Option (List Char × List Char)
  | 0, _ => none
  | _ + 1, [] => none
  | fuel + 1, c :: rest =>
    if c = '"' then some ([], rest)
    else if c = '\\' then
      match rest with
      | [] => none
      | e :: rest2 =>
        match escapeChar e with
        | none => none
        | some ch => (parseStringChars fuel rest2).map (fun p => (ch :: p.1, p.2))
    else (parseStringChars fuel rest).map (fun p => (c :: p.1, p.2))

/-- Parse a JSON number (integer or decimal; no exponent forms occur in the
modelled responses). -/
def parseNumber (cs : List Char) : Option (ℚ × List Char) :=
  let p := match cs with
    | '-' :: r => (true, r)
    | _ => (false, cs)
  match takeDigits p.2 with
  | ([], _) => none
  | (ds, rest) =>
    if 1 < ds.length && ds.headD '1' = '0' then none
    else
      let ip : ℚ := (digitsToNat ds : ℕ)
      match rest with
      | '.' :: rest2 =>
        match takeDigits rest2 with
        | ([], _) => none
        | (fds, rest3) =>
          let v := ip + (digitsToNat fds : ℚ) / ((10 : ℚ) ^ fds.length)
          some (if p.1 then -v else v, rest3)
      | _ => some (if p.1 then -ip else ip, rest)

mutual

/-- Parse one JSON value, returning it and the remaining input. -/
def parseValue : ℕ → List Char → Option (Json × List Char)
  | 0, _ => none
  | fuel + 1, cs =>
    match skipWs cs with
    | [] => none
    | c :: rest =>
      if c = '\x7b' then
        match skipWs rest with
        | '\x7d' :: rest2 => some (.obj [], rest2)
        | rest2 => (parseMembers fuel rest2 []).map (fun p => (.obj p.1, p.2))
      else if c = '[' then
        match skipWs rest with
        | ']' :: rest2 => some (.arr [], rest2)
        | rest2 => (parseElements fuel rest2 []).map (fun p => (.arr p.1, p.2))
      else if c = '"' then
        (parseStringChars (fuel + 1) rest).map (fun p => (.str (String.mk p.1), p.2))
      else if ['t','r','u','e'].isPrefixOf (c :: rest) then
        some (.bool true, (c :: rest).drop 4)
      else if ['f','a','l','s','e'].isPrefixOf (c :: rest) then
        some (.bool false, (c :: rest).drop 5)
      else if ['n','u','l','l'].isPrefixOf (c :: rest) then
        some (.null, (c :: rest).drop 4)
      else
        (parseNumber (c :: rest)).map (fun p => (.num p.1, p.2))

/-- Parse the members of a JSON object, positioned at a key. -/
def parseMembers : ℕ → List Char → List (String × Json) →
    Option (List (String × Json) × List Char)
  | 0, _, _ => none
  | fuel + 1, cs, acc =>
    match skipWs cs with
    | '"' :: rest =>
      match parseStringChars (fuel + 1) rest with
      | none => none
      | some (kcs, rest2) =>
        match skipWs rest2 with
        | ':' :: rest3 =>
          match parseValue fuel rest3 with
          | none => none
          | some (v, rest4) =>
            match skipWs rest4 with
            | ',' :: rest5 => parseMembers fuel rest5 (acc ++ [(String.mk kcs, v)])
            | '\x7d' :: rest5 => some (acc ++ [(String.mk kcs, v)], rest5)
            | _ => none
        | _ => none
    | _ => none

/-- Parse the elements of a JSON array, positioned at a value. -/
def parseElements : ℕ → List Char → List Json → Option (List Json × List Char)
  | 0, _, _ => none
  | fuel + 1, cs, acc =>
    match parseValue fuel cs with
    | none => none
    | some (v, rest) =>
      match skipWs rest with
      | ',' :: rest2 => parseElements fuel rest2 (acc ++ [v])
      | ']' :: rest2 => some (acc ++ [v], rest2)
      | _ => none

end

/-- Python `json.loads`: a full parse of the text with only whitespace
allowed around the value. -/
def parseJsonText (cs : List Char) : Option Json :=
  match parseValue (4 * cs.length + 8) cs with
  | some (j, rest) => if (skipWs rest).isEmpty then some j else none
  | none => none

/-
Model of `re.search(r"```(?:json)?\s*\n(.*?)\n```", text, re.DOTALL)`:
leftmost start position first; the optional `json` tag is preferred over the
empty alternative; `\s*` is greedy with backtracking into the literal `\n`;
the capture `(.*?)` is non-greedy up to the first following `\n` + fence.
-/

/-- Characters matched by the regex class `\s`. -/
def isRegexWs (c : Char) : Bool :=
  c = ' ' || c = '\t' || c = '\n' || c = '\r' || c = '\x0b' || c = '\x0c'

/-- Three backticks. -/
def fenceChars : List Char := ['\x60', '\x60', '\x60']

/-- Non-greedy capture: the span before the first `\n` followed by a fence. -/
def captureBeforeFence : List Char → Option (List Char)
  | [] => none
  | c :: rest =>
    if ('\n' :: fenceChars).isPrefixOf (c :: rest) then some []
    else (captureBeforeFence rest).map (c :: ·)

/-- Length of the maximal leading `\s` run. -/
def wsRunLen : List Char → ℕ
  | [] => 0
  | c :: rest => if isRegexWs c then wsRunLen rest + 1 else 0

/-- Try `\s*` consuming exactly `t` characters (largest `t` first, as a
greedy `\s*` backtracks), then the literal `\n`, then the capture. -/
def tryWsTail (cs : List Char) : ℕ → Option (List Char)
  | 0 =>
    match cs with
    | '\n' :: after => captureBeforeFence after
    | _ => none
  | t + 1 =>
    let attempt : Option (List Char) :=
      if (cs.take (t + 1)).all isRegexWs then
        match cs.drop (t + 1) with
        | '\n' :: after => captureBeforeFence after
        | _ => none
      else none
    match attempt with
    | some cap => some cap
    | none => tryWsTail cs t

/-- Match the fenced-block regex anchored at the head of `cs`. -/
def matchFenceAt (cs : List Char) : Option (List Char) :=
  if fenceChars.isPrefixOf cs then
    let rest := cs.drop 3
    let tagged : Option (List Char) :=
      if ['j','s','o','n'].isPrefixOf rest then
        let r2 := rest.drop 4
        tryWsTail r2 (wsRunLen r2)
      else none
    match tagged with
    | some cap => some cap
    | none => tryWsTail rest (wsRunLen rest)
  else none

/-- Embeds `re.search`: first start position at which the whole pattern matches. -/
def searchFence : List Char → Option (List Char)
  | [] => none
  | c :: rest =>
    match matchFenceAt (c :: rest) with
    | some cap => some cap
    | none => searchFence rest

/-- The brace-depth scan of `ResponseParser.extract_json`: track nesting
depth over the enumerated characters; on each return to depth zero try to
parse the span from the matching opening brace; a failed parse clears the
start index and the scan continues. -/
def braceScanAux (full : List Char) :
    List (ℕ × Char) → ℤ → Option ℕ → Option Json
  | [], _, _ => none
  | (i, c) :: rest, count, start =>
    if c = '\x7b' then
      braceScanAux full rest (count + 1) (if count = 0 then some i else start)
    else if c = '\x7d' then
      match start with
      | some s =>
        if count - 1 = 0 then
          match parseJsonText ((full.drop s).take (i + 1 - s)) with
          | some j => some j
          | none => braceScanAux full rest (count - 1) none
        else braceScanAux full rest (count - 1) (some s)
      | none => braceScanAux full rest (count - 1) none
    else braceScanAux full rest count start

/-- Embeds `ResponseParser.extract_json`: whole-text JSON parse, then the fenced
code block (a parse failure of the fenced content falls through), then the
brace-depth scan; raises `ValueError` when all three fail. -/
def extract_json (text : String) : Except String Json :=
  let cs := text.toList
  match parseJsonText cs with
  | some j => .ok j
  | none =>
    match (searchFence cs).bind parseJsonText with
    | some j => .ok j
    | none =>
      match braceScanAux cs cs.enum 0 none with
      | some j => .ok j
      | none => .error "Could not extract valid JSON from LLM response"

/-- Embeds `ResponseParser.validate_grading_response`: requires `breakdown` (a
non-empty list), `overall_feedback` and `total_score` at the top level, and
the four canonical keys on every breakdown entry. -/
def validate_grading_response (r : Json) : Bool :=
  (["breakdown", "overall_feedback", "total_score"].all (jHasKey r)) &&
  (match jGet r "breakdown" with
   | some (.arr l) =>
     0 < l.length &&
     l.all (fun c =>
       ["criterion_name", "points_awarded", "max_points", "feedback"].all
         (jHasKey c))
   | _ => false)

/-
Embedding of `src/models/grading_input.py` and `src/models/grading_output.py`.
Pydantic models validate their field constraints at construction and raise
`ValidationError` on violation; this is modelled by Except-valued smart
constructors.  Metadata fields with no behavioural role in the claims
(`model_used`, `timestamp`) are omitted.
-/

/-- Embeds `RubricCriterion` (guidelines omitted: unused by the modelled logic). -/
structure RubricCriterion where
  name : String
  description : String
  max_points : ℚ

/-- Embeds `GradingRubric`. -/
structure GradingRubric where
  criteria : List RubricCriterion
  total_points : ℚ

/-- Embeds `GradingRequest` (strategy tag omitted: dispatch happens above the
modelled layer). -/
structure GradingRequest where
  problem_description : String
  reference_solution : String
  rubric : GradingRubric
  student_code : String

/-- Embeds `GradingRubric.validate_total`. -/
def validate_total (r : GradingRubric) : Bool :=
  |((r.criteria.map (·.max_points)).sum) - r.total_points| < 1 / 100

/-- Embeds `GradingRequest.validate_rubric`. -/
def validate_rubric (req : GradingRequest) : Bool :=
  validate_total req.rubric

/-- The data carried by a validated `CriterionScore`. -/
structure CriterionScoreData where
  criterion_name : String
  points_awarded : ℚ
  max_points : ℚ
  feedback : String
deriving DecidableEq

/-- The data carried by a validated `GradingResult`. -/
structure GradingResultData where
  final_score : ℚ
  total_points : ℚ
  percentage : ℚ
  breakdown : List CriterionScoreData
  overall_feedback : String
  grading_strategy : String
  reasoning_trace : String
deriving DecidableEq

/-- Construction of `CriterionScore`, with its pydantic field constraints:
`points_awarded ≥ 0`, `max_points > 0`, `feedback` at least 5 characters.
Pydantic reports all violated constraints in one error; only the fact of
failure matters here, so the first violated constraint names the error. -/
def mkCriterionScore (name : String) (pa mp : ℚ) (fb : String) :
    Except String CriterionScoreData :=
  if pa < 0 then .error "ValidationError: points_awarded must be >= 0"
  else if ¬ 0 < mp then .error "ValidationError: max_points must be > 0"
  else if fb.length < 5 then .error "ValidationError: feedback too short"
  else .ok ⟨name, pa, mp, fb⟩

/-- Construction of `GradingResult`, with its pydantic field constraints:
`final_score ≥ 0`, `total_points > 0`, `percentage` in `[0, 100]`,
`breakdown` non-empty, `overall_feedback` at least 10 characters,
`grading_strategy` drawn from the closed literal set. -/
def mkGradingResult (fs tp pct : ℚ) (breakdown : List CriterionScoreData)
    (ofb strategy trace : String) : Except String GradingResultData :=
  if fs < 0 then .error "ValidationError: final_score must be >= 0"
  else if ¬ 0 < tp then .error "ValidationError: total_points must be > 0"
  else if ¬ (0 ≤ pct ∧ pct ≤ 100) then
    .error "ValidationError: percentage out of range"
  else if breakdown.isEmpty then .error "ValidationError: breakdown empty"
  else if ofb.length < 10 then .error "ValidationError: overall_feedback too short"
  else if ¬ (strategy = "cot" ∨ strategy = "few_shot_cot" ∨
             strategy = "voting" ∨ strategy = "evaluator_optimizer") then
    .error "ValidationError: unknown grading_strategy"
  else .ok ⟨fs, tp, pct, breakdown, ofb, strategy, trace⟩

/-- A Python for-loop that builds a list, propagating the first raised
exception (used for pydantic constructions inside loops and for
`asyncio.gather`, which re-raises a failing task's exception). -/
def exceptMapList (f : α → Except String β) : List α → Except String (List β)
  | [] => .ok []
  | x :: xs =>
    match f x with
    | .error e => .error e
    | .ok y =>
      match exceptMapList f xs with
      | .error e => .error e
      | .ok ys => .ok (y :: ys)

/-
Embedding of `src/agentic/voting_system.py`.
-/

/-- Python `str.strip()` whitespace set. -/
def isPyWs (c : Char) : Bool :=
  c = ' ' || c = '\t' || c = '\n' || c = '\r' || c = '\x0b' || c = '\x0c'

/-- Truthiness of `f.strip()`: at least one non-whitespace character. -/
def stripNonEmpty (s : String) : Bool := !(s.toList.all isPyWs)

/-- Embeds `dict.fromkeys` de-duplication, preserving first-seen order. -/
def dedupFirstSeen (l : List String) : List String :=
  l.foldl (fun acc f => if f ∈ acc then acc else acc ++ [f]) []

/-- Embeds `VotingSystem._merge_feedback`: drop blank strings, de-duplicate
preserving first-seen order; zero survivors give the placeholder, one is
returned verbatim, otherwise the first two are joined with a space. -/
def merge_feedback (feedback_list : List String) : String :=
  if feedback_list.isEmpty then "Consensus evaluation"
  else
    match dedupFirstSeen (feedback_list.filter stripNonEmpty) with
    | [] => "Consensus evaluation"
    | [f] => f
    | f1 :: f2 :: _ => f1 ++ " " ++ f2

/-- Insertion into a sorted list (ascending). -/
def insertSorted (x : ℚ) : List ℚ → List ℚ
  | [] => [x]
  | y :: ys => if x ≤ y then x :: y :: ys else y :: insertSorted x ys

/-- Python `sorted` on rationals. -/
def sortScores (l : List ℚ) : List ℚ := l.foldr insertSorted []

/-- Embeds `statistics.median`: middle element of the sorted data for odd length,
average of the two middle elements for even length (callers guarantee
non-empty data; `median []` in Python raises and is never reached). -/
def median (l : List ℚ) : ℚ :=
  let s := sortScores l
  let n := s.length
  if n % 2 = 1 then s.getD (n / 2) 0
  else (s.getD (n / 2 - 1) 0 + s.getD (n / 2) 0) / 2

/-- Embeds `statistics.mean`. -/
def mean (l : List ℚ) : ℚ := l.sum / (l.length : ℚ)

/-- Breakdown of one parsed voter response: the root-level `breakdown` when
truthy, otherwise the one nested under `final_grade`. -/
def breakdown_of (parsed : Json) : List Json :=
  let b := jGetD parsed "breakdown" (.arr [])
  if jTruthy b then asArr b
  else asArr (jGetD (jGetD parsed "final_grade" (.obj [])) "breakdown" (.arr []))

/-- The dict key a breakdown entry is filed under:
`cs.get("criterion_name", cs.get("criterion"))`. -/
def entryKey (cs : Json) : Option Json :=
  match jGet cs "criterion_name" with
  | some v => some v
  | none => jGet cs "criterion"

/-- Whether a breakdown entry is filed under the (string) criterion name
`name`; a missing or non-string key never equals a rubric criterion name. -/
def entryMatches (name : String) (cs : Json) : Bool :=
  match entryKey cs with
  | some (.str s) => s = name
  | _ => false

/-- Embeds `float(cs.get("points_awarded", cs.get("score", 0)))`. -/
def entryScore (cs : Json) : ℚ :=
  pyFloat (jGetD cs "points_awarded" (jGetD cs "score" (.num 0)))

/-- Embeds `cs.get("feedback", "")`. -/
def entryFeedback (cs : Json) : String := pyStr (jGetD cs "feedback" (.str ""))

/-- All breakdown entries of all voters, in voter order (the traversal that
fills `criterion_votes` / `feedback_collection`). -/
def allEntries (grades : List (ℕ × Json)) : List Json :=
  grades.flatMap (fun g => breakdown_of g.2)

/-- Embeds `criterion_votes[name]`: the scores filed under `name`, in traversal
order. -/
def votes_for (grades : List (ℕ × Json)) (name : String) : List ℚ :=
  (allEntries grades).filterMap
    (fun cs => if entryMatches name cs then some (entryScore cs) else none)

/-- Embeds `feedback_collection[name]`: the feedback strings filed under `name`,
in the same traversal order. -/
def feedbacks_for (grades : List (ℕ × Json)) (name : String) : List String :=
  (allEntries grades).filterMap
    (fun cs => if entryMatches name cs then some (entryFeedback cs) else none)

/-- Feedback strings of voters whose score is within 0.5 of the median. -/
def relevant_feedbacks (scores : List ℚ) (feedbacks : List String) (med : ℚ) :
    List String :=
  (scores.zip feedbacks).filterMap
    (fun p => if |p.1 - med| ≤ 1 / 2 then some p.2 else none)

/-- Aggregation of one voted criterion: mean score published, median used
only to select nearby feedback, then the `CriterionScore` construction. -/
def agg_criterion (grades : List (ℕ × Json)) (c : RubricCriterion) :
    Except String CriterionScoreData :=
  let scores := votes_for grades c.name
  mkCriterionScore c.name (mean scores) c.max_points
    (merge_feedback
      (relevant_feedbacks scores (feedbacks_for grades c.name) (median scores)))

/-- The root-level `overall_feedback` when truthy, else the one nested under
`final_grade` (defaulting to `""`); appended only when truthy. -/
def overall_feedback_of (parsed : Json) : Option String :=
  let v1 := jGetD parsed "overall_feedback" .null
  let v :=
    if jTruthy v1 then v1
    else jGetD (jGetD parsed "final_grade" (.obj [])) "overall_feedback" (.str "")
  if jTruthy v then some (pyStr v) else none

/-- Embeds `VotingSystem._aggregate_votes`: criteria with no votes are skipped (a
logged warning); each voted criterion gets the mean of its votes and the
median-selected merged feedback; the result is a `GradingResult` with
`final_score` the sum over included criteria and `percentage` computed
against the rubric total. -/
def aggregate_votes (grades : List (ℕ × Json)) (rubric : GradingRubric) :
    Except String GradingResultData :=
  let voted := rubric.criteria.filter (fun c => !(votes_for grades c.name).isEmpty)
  match exceptMapList (agg_criterion grades) voted with
  | .error e => .error e
  | .ok breakdown =>
    let total_score := (breakdown.map (·.points_awarded)).sum
    if rubric.total_points = 0 then .error "ZeroDivisionError: float division by zero"
    else
      mkGradingResult total_score rubric.total_points
        (total_score / rubric.total_points * 100) breakdown
        (merge_feedback (grades.filterMap (fun g => overall_feedback_of g.2)))
        "voting"
        ("Aggregated from " ++ toString grades.length ++
         " independent graders using median voting (temperature range: 0.3-0.7)")

/-
Embedding of `src/graders/base_grader.py`.
-/

/-- Embeds `BaseGrader._parse_llm_response`: extraction failures propagate; a
schema-validation failure is only logged as a warning and the parsed value
is returned unchanged. -/
def parse_llm_response (text : String) : Except String Json :=
  match extract_json text with
  | .error e => .error e
  | .ok parsed =>
    -- `validate_grading_response parsed` is computed only for the warning log
    .ok parsed

/-- One breakdown item of `BaseGrader._build_result`: alias spellings
`criterion`/`score`/`max_score` are preferred over
`criterion_name`/`points_awarded`/`max_points`, missing fields default, and
the `CriterionScore` model constraints are then enforced. -/
def build_breakdown_item (item : Json) : Except String CriterionScoreData :=
  mkCriterionScore
    (pyStr (jGetD item "criterion" (jGetD item "criterion_name" (.str ""))))
    (pyFloat (jGetD item "score" (jGetD item "points_awarded" (.num 0))))
    (pyFloat (jGetD item "max_score" (jGetD item "max_points" (.num 0))))
    (pyStr (jGetD item "feedback" (.str "")))

/-- The local `final_grade = parsed_response.get("final_grade", {})`. -/
def br_final_grade (parsed : Json) : Json := jGetD parsed "final_grade" (.obj [])

/-- The local `total_score = final_grade.get("total_score", 0)`. -/
def br_total_score (parsed : Json) : ℚ :=
  pyFloat (jGetD (br_final_grade parsed) "total_score" (.num 0))

/-- The local `total_possible = final_grade.get("total_possible",
request.rubric.total_points)`. -/
def br_total_possible (parsed : Json) (rubric : GradingRubric) : ℚ :=
  pyFloat (jGetD (br_final_grade parsed) "total_possible" (.num rubric.total_points))

/-- The local `percentage = final_grade.get("percentage", 0)`. -/
def br_percentage (parsed : Json) : ℚ :=
  pyFloat (jGetD (br_final_grade parsed) "percentage" (.num 0))

/-- The `total_possible`/`percentage` pair after the rubric-override block:
a `total_possible` disagreeing with the rubric total is replaced by it, and
the percentage is recomputed only when `total_score > 0`. -/
def br_tp_pct (parsed : Json) (rubric : GradingRubric) : ℚ × ℚ :=
  if br_total_possible parsed rubric ≠ rubric.total_points then
    (rubric.total_points,
     if 0 < br_total_score parsed then
       br_total_score parsed / rubric.total_points * 100
     else br_percentage parsed)
  else (br_total_possible parsed rubric, br_percentage parsed)

/-- Embeds `final_grade.get("overall_feedback",
parsed_response.get("overall_feedback", ""))`: wrapper preferred, top level
as fallback. -/
def br_overall_feedback (parsed : Json) : String :=
  pyStr (jGetD (br_final_grade parsed) "overall_feedback"
    (jGetD parsed "overall_feedback" (.str "")))

/-- Embeds `BaseGrader._build_result`: scores are read from the `final_grade`
wrapper, the breakdown list from the top level; a `total_possible`
disagreeing with the rubric is overridden and the percentage recomputed when
`total_score > 0`; `overall_feedback` prefers the wrapper with the top level
as fallback; the (logged-only) `validate_score` check does not alter the
value. -/
def build_result (parsed : Json) (rubric : GradingRubric)
    (strategy trace : String) : Except String GradingResultData :=
  match exceptMapList build_breakdown_item
      (asArr (jGetD parsed "breakdown" (.arr []))) with
  | .error e => .error e
  | .ok breakdown =>
    mkGradingResult (br_total_score parsed) (br_tp_pct parsed rubric).1
      (br_tp_pct parsed rubric).2 breakdown (br_overall_feedback parsed)
      strategy trace

/-- Embeds `BaseGrader.validate_request`: rubric totals must agree and the problem
and student-code texts must be non-empty. -/
def validate_request (req : GradingRequest) : Bool :=
  validate_rubric req && !(req.problem_description = "") && !(req.student_code = "")

/-
Embedding of `src/agentic/optimizer.py` and
`src/graders/evaluator_optimizer_grader.py`.
The Evaluator and Optimizer LLM round-trips (prompt assembly, transport,
JSON extraction) are modelled as oracle functions producing the parsed JSON
of each call, or the error the round-trip raises.
-/

/-- The dict `Optimizer.critique` assembles from the parsed LLM response. -/
def optimizer_critique (parsed : Json) : Json :=
  .obj [("approved", jGetD parsed "approved" (.bool false)),
        ("issues_found", jGetD parsed "issues_found" (.arr [])),
        ("overall_assessment", jGetD parsed "overall_assessment" (.str "")),
        ("confidence", jGetD parsed "confidence" (.num (1 / 2)))]

/-- Embeds `Optimizer.has_issues`: a non-empty issue list and not approved. -/
def has_issues (critique : Json) : Bool :=
  0 < pyLen (jGetD critique "issues_found" (.arr [])) &&
  !(jTruthy (jGetD critique "approved" (.bool false)))

/-- Oracles for the two agents: the parsed JSON each LLM round-trip yields
(or the exception it raises).  `critiqueFn` maps the current grade to the
raw parsed optimizer response; `refineFn` maps the current grade and the
processed critique to the refined grade. -/
structure EOOracles where
  evalGrade : Except String Json
  critiqueFn : Json → Except String Json
  refineFn : Json → Json → Except String Json

/-- Outcome of the Evaluator-Optimizer workflow: how many Evaluator and
Optimizer calls were issued, and the result (or raised exception). -/
structure EOOutcome where
  evaluatorCalls : ℕ
  optimizerCalls : ℕ
  result : Except String GradingResultData

/-- The `for iteration in range(1, max_iterations)` loop of
`EvaluatorOptimizerGrader.grade`: critique the current grade; stop on
approval; refine only when issues were found and `iteration` is below
`max_iterations - 1`; otherwise stop.  Returns the number of Evaluator
(refine) calls, the number of Optimizer calls, and the final grade or the
exception that aborted the loop.  The fuel equals the remaining iteration
budget and never runs out for `iteration ≥ 1`. -/
def critique_loop (o : EOOracles) (maxIter : ℕ) :
    ℕ → ℕ → Json → ℕ × ℕ × Except String Json
  | 0, _, cur => (0, 0, .ok cur)
  | fuel + 1, iteration, cur =>
    if iteration < maxIter then
      match o.critiqueFn cur with
      | .error e => (0, 1, .error e)
      | .ok parsed =>
        let c := optimizer_critique parsed
        if jTruthy (jGetD c "approved" (.bool false)) then (0, 1, .ok cur)
        else if has_issues c && decide (iteration < maxIter - 1) then
          match o.refineFn cur c with
          | .error e => (1, 1, .error e)
          | .ok refined =>
            let r := critique_loop o maxIter fuel (iteration + 1) refined
            (r.1 + 1, r.2.1 + 1, r.2.2)
        else (0, 1, .ok cur)
    else (0, 0, .ok cur)

/-- Embeds `EvaluatorOptimizerGrader.grade`: validate the request, take the initial
Evaluator grade, run the critique loop, and canonicalize the final grade via
the Result Builder with strategy tag `evaluator_optimizer` (the
reasoning-trace rendering of the iteration history is pure string formatting
and is not modelled). -/
def evaluator_optimizer_grade (o : EOOracles) (req : GradingRequest)
    (maxIter : ℕ) : EOOutcome :=
  if !(validate_request req) then ⟨0, 0, .error "Invalid grading request"⟩
  else
    match o.evalGrade with
    | .error e => ⟨1, 0, .error e⟩
    | .ok g0 =>
      let r := critique_loop o maxIter maxIter 1 g0
      match r.2.2 with
      | .error e => ⟨1 + r.1, r.2.1, .error e⟩
      | .ok gf =>
        ⟨1 + r.1, r.2.1, build_result gf req.rubric "evaluator_optimizer" ""⟩

/-
Embedding of `src/llm/client.py` (`batch_chat_completions`) and
`VotingSystem.grade`.
-/

/-- One voter request: the system/user prompts are identical across voters
(the Direct-Reasoning prompt for the request) and carry no information the
claims depend on, so only the per-voter sampling parameters are kept. -/
structure VoterRequest where
  temperature : ℚ
  max_tokens : ℕ
deriving DecidableEq

/-- The transport: voter index and request to response text, or the raised
transport exception. -/
def Transport := ℕ → VoterRequest → Except String String

/-- Voter `i`'s request at step `step`:
`temperature = min_temp + i * temp_step`, 3000 max tokens, JSON mode. -/
def voter_request (minT step : ℚ) (i : ℕ) : VoterRequest :=
  ⟨minT + i * step, 3000⟩

/-- Embeds `OpenAIClient.batch_chat_completions` over `asyncio.gather` without
`return_exceptions`: all responses in input order, or a failing task's
exception aborting the whole batch (gather propagates the exception of one
failed task; the model deterministically surfaces the lowest-indexed one,
and every theorem below depends only on the batch failing). -/
def batch_chat_completions (transport : Transport) (minT step : ℚ) (n : ℕ) :
    Except String (List String) :=
  exceptMapList (fun i => transport i (voter_request minT step i)) (List.range n)

/-- Embeds `VotingSystem.grade`: compute the temperature step (a
`ZeroDivisionError` when `num_voters == 1`), fan out the voter requests,
parse each response dropping voters whose extraction fails, raise when no
voter parsed, and aggregate.  `num_voters` is a Python int, so negative
counts simply produce an empty fan-out. -/
def voting_system_grade (transport : Transport) (num_voters : ℤ)
    (minT maxT : ℚ) (rubric : GradingRubric) :
    Except String GradingResultData :=
  if num_voters - 1 = 0 then .error "ZeroDivisionError: float division by zero"
  else
    let step := (maxT - minT) / ((num_voters : ℚ) - 1)
    match batch_chat_completions transport minT step num_voters.toNat with
    | .error e => .error e
    | .ok responses =>
      let grades := responses.enum.filterMap
        (fun p => ((extract_json p.2).toOption).map (fun j => (p.1, j)))
      if grades.isEmpty then .error "No valid grades received from voters"
      else aggregate_votes grades rubric

set_option maxRecDepth 100000

/-
Helper lemmas about the Except-valued loop combinator and the pydantic
smart constructors.
-/

theorem exceptMapList_error_of_mem {α β : Type} {f : α → Except String β}
    {l : List α} {x : α} (hx : x ∈ l) {e : String} (hfx : f x = .error e) :
    ∃ e', exceptMapList f l = .error e' := by
  induction l with
  | nil => cases hx
  | cons a as ih =>
    rcases List.mem_cons.mp hx with rfl | hmem
    · exact ⟨e, by simp [exceptMapList, hfx]⟩
    · cases hfa : f a with
      | error e2 => exact ⟨e2, by simp [exceptMapList, hfa]⟩
      | ok y =>
        obtain ⟨e', he'⟩ := ih hmem
        exact ⟨e', by simp [exceptMapList, hfa, he']⟩

theorem exceptMapList_ok_mem {α β : Type} {f : α → Except String β} :
    ∀ {l : List α} {ys : List β}, exceptMapList f l = .ok ys →
      ∀ y ∈ ys, ∃ x ∈ l, f x = .ok y := by
  intro l
  induction l with
  | nil =>
    intro ys h y hy
    simp only [exceptMapList] at h
    cases h
    cases hy
  | cons a as ih =>
    intro ys h y hy
    cases hfa : f a with
    | error e => simp [exceptMapList, hfa] at h
    | ok b =>
      cases hrest : exceptMapList f as with
      | error e => simp [exceptMapList, hfa, hrest] at h
      | ok bs =>
        simp only [exceptMapList, hfa, hrest] at h
        cases h
        rcases List.mem_cons.mp hy with rfl | hmem
        · exact ⟨a, List.mem_cons_self a as, hfa⟩
        · obtain ⟨x, hxl, hfx⟩ := ih hrest y hmem
          exact ⟨x, List.mem_cons_of_mem a hxl, hfx⟩

theorem mkCriterionScore_ok {n : String} {pa mp : ℚ} {fb : String}
    {e : CriterionScoreData} (h : mkCriterionScore n pa mp fb = .ok e) :
    e = ⟨n, pa, mp, fb⟩ := by
  unfold mkCriterionScore at h
  split at h
  · cases h
  · split at h
    · cases h
    · split at h
      · cases h
      · cases h; rfl

theorem mkCriterionScore_error_of_short_feedback (n : String) (pa mp : ℚ)
    {fb : String} (hfb : fb.length < 5) :
    ∃ e, mkCriterionScore n pa mp fb = .error e := by
  by_cases h1 : pa < 0
  · exact ⟨"ValidationError: points_awarded must be >= 0",
      by simp [mkCriterionScore, h1]⟩
  · by_cases h2 : ¬ 0 < mp
    · exact ⟨"ValidationError: max_points must be > 0",
        by simp [mkCriterionScore, h1, h2]⟩
    · exact ⟨"ValidationError: feedback too short",
        by simp [mkCriterionScore, h1, h2, hfb]⟩

theorem mkGradingResult_ok {fs tp pct : ℚ} {breakdown : List CriterionScoreData}
    {ofb strategy trace : String} {r : GradingResultData}
    (h : mkGradingResult fs tp pct breakdown ofb strategy trace = .ok r) :
    r = ⟨fs, tp, pct, breakdown, ofb, strategy, trace⟩ := by
  unfold mkGradingResult at h
  split at h
  · cases h
  · split at h
    · cases h
    · split at h
      · cases h
      · split at h
        · cases h
        · split at h
          · cases h
          · split at h
            · cases h
            · cases h; rfl

theorem build_result_ok {parsed : Json} {rubric : GradingRubric}
    {strategy trace : String} {r : GradingResultData}
    (h : build_result parsed rubric strategy trace = .ok r) :
    ∃ bd, exceptMapList build_breakdown_item
        (asArr (jGetD parsed "breakdown" (.arr []))) = .ok bd ∧
      r = ⟨br_total_score parsed, (br_tp_pct parsed rubric).1,
           (br_tp_pct parsed rubric).2, bd, br_overall_feedback parsed,
           strategy, trace⟩ := by
  cases hm : exceptMapList build_breakdown_item
      (asArr (jGetD parsed "breakdown" (.arr []))) with
  | error e =>
    simp only [build_result, hm] at h
    exact Except.noConfusion h
  | ok bd =>
    simp only [build_result, hm] at h
    exact ⟨bd, rfl, mkGradingResult_ok h⟩

theorem agg_criterion_ok {grades : List (ℕ × Json)} {c : RubricCriterion}
    {e : CriterionScoreData} (h : agg_criterion grades c = .ok e) :
    e.criterion_name = c.name ∧
    e.points_awarded = mean (votes_for grades c.name) ∧
    e.max_points = c.max_points ∧
    e.feedback = merge_feedback (relevant_feedbacks (votes_for grades c.name)
      (feedbacks_for grades c.name) (median (votes_for grades c.name))) := by
  unfold agg_criterion at h
  have := mkCriterionScore_ok h
  subst this
  exact ⟨rfl, rfl, rfl, rfl⟩

theorem aggregate_votes_ok_breakdown {grades : List (ℕ × Json)}
    {rubric : GradingRubric} {r : GradingResultData}
    (h : aggregate_votes grades rubric = .ok r) :
    exceptMapList (agg_criterion grades)
      (rubric.criteria.filter (fun c => !(votes_for grades c.name).isEmpty)) =
      .ok r.breakdown := by
  cases hm : exceptMapList (agg_criterion grades)
      (rubric.criteria.filter (fun c => !(votes_for grades c.name).isEmpty)) with
  | error e =>
    simp only [aggregate_votes, hm] at h
    exact Except.noConfusion h
  | ok bd =>
    simp only [aggregate_votes, hm] at h
    split at h
    · exact Except.noConfusion h
    · have := mkGradingResult_ok h
      subst this
      rfl

/-
Concrete fixtures used to instantiate the theorems below.
-/

/-- A one-criterion rubric. -/
def rubricA : GradingRubric := ⟨[⟨"Correctness", "Is the code correct", 5⟩], 5⟩

/-- A two-criterion rubric. -/
def rubricB : GradingRubric :=
  ⟨[⟨"Correctness", "Is the code correct", 5⟩,
    ⟨"Style", "Is the code clean", 5⟩], 10⟩

/-- A well-formed grading request over `rubricB`. -/
def requestA : GradingRequest :=
  ⟨"Sum two integers and print the result", "int add(int a, int b)", rubricB,
   "int add(int a, int b) return a plus b"⟩

/-- A parsed voter response reporting one Correctness score. -/
def voteJson (score : ℚ) (fb ofb : String) : Json :=
  .obj [("breakdown", .arr [.obj [("criterion_name", .str "Correctness"),
          ("points_awarded", .num score), ("max_points", .num 5),
          ("feedback", .str fb)]]),
        ("overall_feedback", .str ofb),
        ("total_score", .num score)]

/-- Three voters scoring Correctness 3, 5, 5 with distinct feedback. -/
def gradesC3 : List (ℕ × Json) :=
  [(0, voteJson 3 "Logic partially wrong" "Needs work on edge cases"),
   (1, voteJson 5 "Fully correct solution" "Excellent work overall"),
   (2, voteJson 5 "Works on all cases" "Great submission overall")]

/-- A single voter at the median whose feedback is whitespace-only. -/
def gradesWs : List (ℕ × Json) :=
  [(0, .obj [("breakdown", .arr [.obj [("criterion_name", .str "Correctness"),
        ("points_awarded", .num 5), ("max_points", .num 5),
        ("feedback", .str "   ")]]),
      ("overall_feedback", .str "Solid work throughout here")])]

/-- A single voter reporting only Correctness, leaving Style unvoted. -/
def gradesC6 : List (ℕ × Json) :=
  [(0, .obj [("breakdown", .arr [.obj [("criterion_name", .str "Correctness"),
        ("points_awarded", .num 4), ("max_points", .num 5),
        ("feedback", .str "handled well")]]),
      ("overall_feedback", .str "Good effort overall done")])]

/-- A fully parseable voter response text. -/
def okVoteText : String :=
  "\x7b\"breakdown\": [\x7b\"criterion_name\": \"Correctness\", \"points_awarded\": 5, \"max_points\": 5, \"feedback\": \"Fully correct code\"\x7d], \"overall_feedback\": \"Excellent work overall\"\x7d"

/-- A transport on which voter 0 fails and every other voter succeeds. -/
def cexTransport : Transport := fun i _ =>
  if i = 0 then .error "TransportError: connection reset" else .ok okVoteText

/-- A transport on which every voter succeeds. -/
def okTransport : Transport := fun _ _ => .ok okVoteText

/-
Claim theorems.
-/

/-- Claim C7 (confirmed): `extract_json` parses plain JSON, JSON in a fenced
code block, and JSON embedded in prose to the object with field `a = 1`, and
fails with the unparsable-response error on text from which none of the
three recovery attempts yields valid JSON. -/
theorem C7_extract_json_cases :
    extract_json "\x7b\"a\":1\x7d" = .ok (.obj [("a", .num 1)]) ∧
    extract_json "\x60\x60\x60json\n\x7b\"a\":1\x7d\n\x60\x60\x60" =
      .ok (.obj [("a", .num 1)]) ∧
    extract_json "noise \x7b\"a\":1\x7d noise" = .ok (.obj [("a", .num 1)]) ∧
    extract_json "not json at all" =
      .error "Could not extract valid JSON from LLM response" :=
  ⟨rfl, rfl, rfl, rfl⟩

/-- Claim C10 (confirmed): with `num_voters = 1` the temperature-step
division in `VotingSystem.grade` raises `ZeroDivisionError` before any LLM
call is issued — the transport is never consulted — and for every
`num_voters ≤ 1` the call never returns a `GradingResult`. -/
theorem C10_single_voter_division_by_zero (num_voters : ℤ)
    (hn : num_voters ≤ 1) (transport : Transport) (minT maxT : ℚ)
    (rubric : GradingRubric) :
    (num_voters = 1 →
      voting_system_grade transport num_voters minT maxT rubric =
        .error "ZeroDivisionError: float division by zero") ∧
    ∀ r, voting_system_grade transport num_voters minT maxT rubric ≠ .ok r := by
  constructor
  · intro h1
    subst h1
    simp [voting_system_grade]
  · intro r
    by_cases h1 : num_voters = 1
    · subst h1
      simp [voting_system_grade]
    · have hle : num_voters ≤ 0 := by
        rcases lt_or_eq_of_le hn with h | h
        · omega
        · exact absurd h h1
      have htn : num_voters.toNat = 0 := Int.toNat_of_nonpos hle
      have hne : ¬ num_voters - 1 = 0 := by omega
      simp [voting_system_grade, hne, htn, batch_chat_completions,
        List.range_zero, exceptMapList]

/-- Claim C10 witness: the single-voter run on a concrete transport and
rubric raises the division error. -/
theorem C10_witness :
    voting_system_grade okTransport 1 (3/10) (7/10) rubricA =
      .error "ZeroDivisionError: float division by zero" :=
  (C10_single_voter_division_by_zero 1 (by decide) okTransport (3/10) (7/10)
    rubricA).1 rfl

/-- Claim C1 (corrected): `batch_chat_completions` gathers without
exception tolerance, so a transport failure on any one voter aborts the
entire batch — `VotingSystem.grade` surfaces the transport error and no
`GradingResult` is produced, regardless of the other voters' successes.
Per-voter tolerance exists only at the parse stage. -/
theorem C1_transport_failure_aborts_batch (transport : Transport)
    (num_voters : ℤ) (minT maxT : ℚ) (rubric : GradingRubric) (k : ℕ)
    (e : String) (hk : k < num_voters.toNat)
    (ht : transport k
      (voter_request minT ((maxT - minT) / ((num_voters : ℚ) - 1)) k) =
      .error e) :
    ∃ e', voting_system_grade transport num_voters minT maxT rubric =
      .error e' := by
  by_cases h1 : num_voters - 1 = 0
  · exact ⟨"ZeroDivisionError: float division by zero",
      by simp [voting_system_grade, h1]⟩
  · have hmem : k ∈ List.range num_voters.toNat := List.mem_range.mpr hk
    obtain ⟨e', he'⟩ := exceptMapList_error_of_mem (f := fun i =>
      transport i
        (voter_request minT ((maxT - minT) / ((num_voters : ℚ) - 1)) i))
      hmem ht
    refine ⟨e', ?_⟩
    simp only [voting_system_grade, h1, if_false, batch_chat_completions]
    rw [he']

/-- Claim C1 witness: two voters, voter 0's transport fails, the batch
aborts with the transport error. -/
theorem C1_witness :
    ∃ e', voting_system_grade cexTransport 2 (3/10) (7/10) rubricA =
      .error e' :=
  C1_transport_failure_aborts_batch cexTransport 2 (3/10) (7/10) rubricA 0
    "TransportError: connection reset" (by decide) rfl

/-- Claim C1 counterexample: in a two-voter run where voter 0's transport
call fails and voter 1's succeeds with a fully parseable response, the
whole call surfaces the transport error — the successful voter's response
is not aggregated into any `GradingResult`, contrary to the claim. -/
theorem C1_counterexample :
    cexTransport 1 (voter_request (3/10) (2/5) 1) = .ok okVoteText ∧
    extract_json okVoteText =
      .ok (.obj [("breakdown", .arr [.obj [("criterion_name", .str "Correctness"),
             ("points_awarded", .num 5), ("max_points", .num 5),
             ("feedback", .str "Fully correct code")]]),
           ("overall_feedback", .str "Excellent work overall")]) ∧
    voting_system_grade cexTransport 2 (3/10) (7/10) rubricA =
      .error "TransportError: connection reset" :=
  ⟨rfl, rfl, by with_unfolding_all rfl⟩

/-- Claim C6 (confirmed): every entry in an aggregated voting breakdown
corresponds to a criterion with at least one vote, and a rubric criterion
that received zero votes contributes no entry at all. -/
theorem C6_unvoted_criterion_dropped (grades : List (ℕ × Json))
    (rubric : GradingRubric) (r : GradingResultData)
    (h : aggregate_votes grades rubric = .ok r) :
    (∀ e ∈ r.breakdown, votes_for grades e.criterion_name ≠ []) ∧
    (∀ c ∈ rubric.criteria, votes_for grades c.name = [] →
      ∀ e ∈ r.breakdown, e.criterion_name ≠ c.name) := by
  have hbd := aggregate_votes_ok_breakdown h
  have hmem : ∀ e ∈ r.breakdown, votes_for grades e.criterion_name ≠ [] := by
    intro e he
    obtain ⟨c, hc, hce⟩ := exceptMapList_ok_mem hbd e he
    obtain ⟨hcl, hvoted⟩ := List.mem_filter.mp hc
    obtain ⟨hname, -, -, -⟩ := agg_criterion_ok hce
    rw [hname]
    intro hnil
    rw [hnil] at hvoted
    simp at hvoted
  refine ⟨hmem, ?_⟩
  intro c _ hzero e he hne
  have := hmem e he
  rw [hne, hzero] at this
  exact this rfl

/-- Claim C6 witness: with only Correctness voted under the two-criterion
rubric, the single aggregated breakdown entry is not named Style. -/
theorem C6_witness :
    (⟨"Correctness", 4, 5, "handled well"⟩ :
      CriterionScoreData).criterion_name ≠ "Style" :=
  (C6_unvoted_criterion_dropped gradesC6 rubricB
    ⟨4, 10, 40, [⟨"Correctness", 4, 5, "handled well"⟩],
     "Good effort overall done", "voting",
     "Aggregated from 1 independent graders using median voting (temperature range: 0.3-0.7)"⟩
    (by with_unfolding_all rfl)).2
    ⟨"Style", "Is the code clean", 5⟩ (by simp [rubricB]) (by rfl)
    ⟨"Correctness", 4, 5, "handled well"⟩ (List.mem_singleton.mpr rfl)

/-- A parsed response with `total_score` and `overall_feedback` both at the
top level and inside the `final_grade` wrapper. -/
def parsedC4 : Json :=
  .obj [("total_score", .num 7),
        ("overall_feedback", .str "Top level feedback text"),
        ("final_grade", .obj [("total_score", .num 5), ("total_possible", .num 10),
          ("percentage", .num 50),
          ("overall_feedback", .str "Wrapper level feedback text")]),
        ("breakdown", .arr [.obj [("criterion", .str "Correctness"),
          ("score", .num 5), ("max_score", .num 5),
          ("feedback", .str "all good here")]])]

/-- A parsed response whose breakdown entry is missing its `feedback` and
`max_points` fields. -/
def parsedC5 : Json :=
  .obj [("total_score", .num 3),
        ("overall_feedback", .str "Decent overall effort"),
        ("breakdown", .arr [.obj [("criterion", .str "Correctness"),
          ("score", .num 3), ("max_score", .num 5)]])]

/-- A parsed response whose `total_possible` (5) disagrees with the rubric
total (10) while `total_score` is absent (defaulting to 0). -/
def parsedC8 : Json :=
  .obj [("final_grade", .obj [("total_possible", .num 5), ("percentage", .num 37),
          ("overall_feedback", .str "Decent overall effort")]),
        ("breakdown", .arr [.obj [("criterion", .str "Correctness"),
          ("score", .num 2), ("max_score", .num 5),
          ("feedback", .str "solid work")]])]

/-- Claim C4 counterexample: with `total_score` present both at the top
level (7) and in the `final_grade` wrapper (5), and `overall_feedback`
present at both levels, the built result carries the wrapper's values — the
top-level `total_score` of 7 is ignored, contrary to the claim. -/
theorem C4_counterexample :
    jGet parsedC4 "total_score" = some (.num 7) ∧
    build_result parsedC4 rubricB "cot" "" =
      .ok ⟨5, 10, 50, [⟨"Correctness", 5, 5, "all good here"⟩],
           "Wrapper level feedback text", "cot", ""⟩ ∧
    (5 : ℚ) ≠ 7 ∧
    ("Wrapper level feedback text" : String) ≠ "Top level feedback text" := by
  refine ⟨rfl, by with_unfolding_all rfl, by norm_num, by decide⟩

/-- Claim C4 (corrected): the Result Builder reads `total_score` (and the
other scores) only from the `final_grade` wrapper, reads `overall_feedback`
from the wrapper with the top level only as fallback, and reads the
breakdown list only from the top level — the wrapper is preferred for the
scalar fields, not the top level. -/
theorem C4_wrapper_preferred (parsed : Json) (rubric : GradingRubric)
    (strategy trace : String) (r : GradingResultData) (vTop vWrap : Json)
    (_htop : jGet parsed "total_score" = some vTop)
    (hwrap : jGet (br_final_grade parsed) "total_score" = some vWrap)
    (hok : build_result parsed rubric strategy trace = .ok r) :
    r.final_score = pyFloat vWrap ∧
    (∀ wTop wWrap : Json, jGet parsed "overall_feedback" = some wTop →
      jGet (br_final_grade parsed) "overall_feedback" = some wWrap →
      r.overall_feedback = pyStr wWrap) ∧
    exceptMapList build_breakdown_item
      (asArr (jGetD parsed "breakdown" (.arr []))) = .ok r.breakdown := by
  obtain ⟨bd, hbd, hr⟩ := build_result_ok hok
  subst hr
  refine ⟨?_, ?_, hbd⟩
  · show br_total_score parsed = pyFloat vWrap
    unfold br_total_score jGetD
    rw [hwrap]
    rfl
  · intro wTop wWrap hw1 hw2
    show br_overall_feedback parsed = pyStr wWrap
    unfold br_overall_feedback jGetD
    rw [hw2]
    rfl

/-- Claim C4 witness: applying the corrected statement to the concrete
two-level response. -/
theorem C4_witness :
    (⟨5, 10, 50, [⟨"Correctness", 5, 5, "all good here"⟩],
      "Wrapper level feedback text", "cot", ""⟩ :
      GradingResultData).final_score = pyFloat (.num 5) :=
  (C4_wrapper_preferred parsedC4 rubricB "cot" "" _ (.num 7) (.num 5) rfl rfl
    (by with_unfolding_all rfl)).1

/-- Claim C5 counterexample: a response whose breakdown entry lacks
`feedback` (and `max_points`) fails schema validation — which is indeed not
escalated — but the Result Builder then raises a `ValidationError` when the
defaulted empty feedback meets the `CriterionScore` model constraints, so no
best-effort `GradingResult` is returned, contrary to the claim. -/
theorem C5_counterexample :
    validate_grading_response parsedC5 = false ∧
    build_result parsedC5 rubricB "cot" "" =
      .error "ValidationError: feedback too short" := by
  refine ⟨by with_unfolding_all rfl, by with_unfolding_all rfl⟩

/-- Claim C5 (corrected): a parse that succeeds but fails schema validation
is returned unchanged by `_parse_llm_response` (the failure is only
logged), and the Result Builder substitutes defaults for missing breakdown
fields — but a breakdown entry missing `feedback` then violates the
`CriterionScore` model constraint (min length 5) at construction, so the
pipeline raises instead of returning a best-effort result. -/
theorem C5_validation_soft_but_model_raises (text : String)
    (parsed entry : Json) (rubric : GradingRubric) (strategy trace : String)
    (hparse : extract_json text = .ok parsed)
    (hmem : entry ∈ asArr (jGetD parsed "breakdown" (.arr [])))
    (hfb : jGet entry "feedback" = none) :
    parse_llm_response text = .ok parsed ∧
    validate_grading_response parsed = false ∧
    ∃ e, build_result parsed rubric strategy trace = .error e := by
  refine ⟨?_, ?_, ?_⟩
  · simp [parse_llm_response, hparse]
  · -- the entry is in a root-level breakdown array and lacks the key
    cases hj : jGet parsed "breakdown" with
    | none =>
      exfalso
      rw [jGetD, hj] at hmem
      cases hmem
    | some v =>
      cases v with
      | arr l =>
        have hentry : entry ∈ l := by
          rw [jGetD, hj] at hmem
          exact hmem
        simp only [validate_grading_response, hj]
        simp
        intro _ _ _ _
        exact ⟨entry, hentry, fun _ _ _ => by rw [jHasKey, hfb]; rfl⟩
      | null => exfalso; rw [jGetD, hj] at hmem; cases hmem
      | bool b => exfalso; rw [jGetD, hj] at hmem; cases hmem
      | num q => exfalso; rw [jGetD, hj] at hmem; cases hmem
      | str s => exfalso; rw [jGetD, hj] at hmem; cases hmem
      | obj m => exfalso; rw [jGetD, hj] at hmem; cases hmem
  · have hshort : (pyStr (jGetD entry "feedback" (.str ""))).length < 5 := by
      rw [jGetD, hfb]
      decide
    obtain ⟨e, he⟩ := mkCriterionScore_error_of_short_feedback
      (pyStr (jGetD entry "criterion" (jGetD entry "criterion_name" (.str ""))))
      (pyFloat (jGetD entry "score" (jGetD entry "points_awarded" (.num 0))))
      (pyFloat (jGetD entry "max_score" (jGetD entry "max_points" (.num 0))))
      hshort
    have hitem : build_breakdown_item entry = .error e := he
    obtain ⟨e', he'⟩ := exceptMapList_error_of_mem hmem hitem
    exact ⟨e', by simp [build_result, he']⟩

/-- Claim C5 witness: applying the corrected statement to the concrete
response with a feedback-less breakdown entry. -/
theorem C5_witness :
    ∃ e, build_result parsedC5 rubricB "cot" "" = .error e :=
  (C5_validation_soft_but_model_raises
    "\x7b\"total_score\": 3, \"overall_feedback\": \"Decent overall effort\", \"breakdown\": [\x7b\"criterion\": \"Correctness\", \"score\": 3, \"max_score\": 5\x7d]\x7d"
    parsedC5
    (.obj [("criterion", .str "Correctness"), ("score", .num 3),
           ("max_score", .num 5)])
    rubricB "cot" "" (by rfl) (by simp [parsedC5, jGetD, jGet, jLookup, asArr])
    rfl).2.2

/-- Claim C8 counterexample: with `total_possible = 5` disagreeing with the
rubric total 10 and a missing `total_score` (defaulting to 0), the built
result overrides `total_points` to 10 but keeps the stale parsed
`percentage` of 37 instead of recomputing `0 / 10 * 100 = 0`, contrary to
the claim that the percentage is always recomputed. -/
theorem C8_counterexample :
    build_result parsedC8 rubricB "cot" "" =
      .ok ⟨0, 10, 37, [⟨"Correctness", 2, 5, "solid work"⟩],
           "Decent overall effort", "cot", ""⟩ ∧
    (37 : ℚ) ≠ 0 / 10 * 100 := by
  refine ⟨by with_unfolding_all rfl, by norm_num⟩

/-- Claim C8 (corrected): when the parsed `total_possible` disagrees with
the rubric's `total_points`, the built result's `total_points` always equals
the rubric's value, but the percentage is recomputed from the parsed
`final_score` only when that score is positive; otherwise the parsed
percentage is kept as-is. -/
theorem C8_total_points_override (parsed : Json) (rubric : GradingRubric)
    (strategy trace : String) (r : GradingResultData)
    (hok : build_result parsed rubric strategy trace = .ok r)
    (hdiff : br_total_possible parsed rubric ≠ rubric.total_points) :
    r.total_points = rubric.total_points ∧
    (0 < br_total_score parsed →
      r.percentage = br_total_score parsed / rubric.total_points * 100) ∧
    (¬ 0 < br_total_score parsed →
      r.percentage = br_percentage parsed) := by
  obtain ⟨bd, hbd, hr⟩ := build_result_ok hok
  subst hr
  refine ⟨?_, ?_, ?_⟩
  · show (br_tp_pct parsed rubric).1 = rubric.total_points
    rw [br_tp_pct, if_pos hdiff]
  · intro hpos
    show (br_tp_pct parsed rubric).2 = _
    rw [br_tp_pct, if_pos hdiff]
    simp [if_pos hpos]
  · intro hneg
    show (br_tp_pct parsed rubric).2 = _
    rw [br_tp_pct, if_pos hdiff]
    simp [if_neg hneg]

/-- Claim C8 witness: applying the corrected statement to the concrete
disagreeing response (where the stale percentage is kept). -/
theorem C8_witness :
    (⟨0, 10, 37, [⟨"Correctness", 2, 5, "solid work"⟩],
      "Decent overall effort", "cot", ""⟩ :
      GradingResultData).percentage = br_percentage parsedC8 :=
  (C8_total_points_override parsedC8 rubricB "cot" "" _
    (by with_unfolding_all rfl) (by with_unfolding_all decide)).2.2
    (by with_unfolding_all decide)

/-- Modelled from the claim's wording (C3), for comparison with the code's
`merge_feedback`: every feedback string of a voter within 0.5 of the median
is kept (no further filtering), de-duplicated preserving first-seen order;
zero survivors give the placeholder, one survivor is returned verbatim,
more than one gives the first two concatenated. -/
def claimed_merge_feedback (l : List String) : String :=
  match dedupFirstSeen l with
  | [] => "Consensus evaluation"
  | [f] => f
  | f1 :: f2 :: _ => f1 ++ " " ++ f2

/-- Claim C3 counterexample: a single voter at the median whose feedback is
whitespace-only.  By the claim that survivor is kept and returned verbatim;
the code filters blank strings first and publishes the placeholder
instead. -/
theorem C3_counterexample :
    relevant_feedbacks (votes_for gradesWs "Correctness")
      (feedbacks_for gradesWs "Correctness")
      (median (votes_for gradesWs "Correctness")) = ["   "] ∧
    claimed_merge_feedback ["   "] = "   " ∧
    aggregate_votes gradesWs rubricA =
      .ok ⟨5, 5, 100, [⟨"Correctness", 5, 5, "Consensus evaluation"⟩],
           "Solid work throughout here", "voting",
           "Aggregated from 1 independent graders using median voting (temperature range: 0.3-0.7)"⟩ ∧
    ("Consensus evaluation" : String) ≠ "   " :=
  ⟨by with_unfolding_all rfl, rfl, by with_unfolding_all rfl, by decide⟩

/-- Claim C3 (corrected): every published criterion score is the arithmetic
mean of its votes while the median only selects feedback: the non-blank
feedback strings of voters within 0.5 of the median are kept, de-duplicated
preserving first-seen order, with the placeholder for zero survivors, the
single survivor verbatim, and the first two joined otherwise.  For votes
`[3, 5, 5]` the published score is the mean 13/3 and only the two voters
scoring 5 contribute feedback. -/
theorem C3_mean_score_and_median_feedback :
    (∀ (grades : List (ℕ × Json)) (rubric : GradingRubric)
       (r : GradingResultData), aggregate_votes grades rubric = .ok r →
       ∀ e ∈ r.breakdown,
         e.points_awarded = mean (votes_for grades e.criterion_name) ∧
         e.feedback = merge_feedback (relevant_feedbacks
           (votes_for grades e.criterion_name)
           (feedbacks_for grades e.criterion_name)
           (median (votes_for grades e.criterion_name)))) ∧
    votes_for gradesC3 "Correctness" = [3, 5, 5] ∧
    median (votes_for gradesC3 "Correctness") = 5 ∧
    mean (votes_for gradesC3 "Correctness") = 13 / 3 ∧
    aggregate_votes gradesC3 rubricA =
      .ok ⟨13/3, 5, 260/3,
           [⟨"Correctness", 13/3, 5, "Fully correct solution Works on all cases"⟩],
           "Needs work on edge cases Excellent work overall", "voting",
           "Aggregated from 3 independent graders using median voting (temperature range: 0.3-0.7)"⟩ := by
  refine ⟨?_, by with_unfolding_all rfl, by with_unfolding_all rfl,
    by with_unfolding_all rfl, by with_unfolding_all rfl⟩
  intro grades rubric r h e he
  have hbd := aggregate_votes_ok_breakdown h
  obtain ⟨c, _, hce⟩ := exceptMapList_ok_mem hbd e he
  obtain ⟨hname, hpoints, -, hfb⟩ := agg_criterion_ok hce
  rw [hname, hpoints, hfb]
  exact ⟨rfl, rfl⟩

/-- Claim C3 witness: the general mean/median statement applied to the
concrete `[3, 5, 5]` run's single breakdown entry. -/
theorem C3_witness :
    (⟨"Correctness", 13/3, 5, "Fully correct solution Works on all cases"⟩ :
      CriterionScoreData).points_awarded =
        mean (votes_for gradesC3 "Correctness") ∧
    (⟨"Correctness", 13/3, 5, "Fully correct solution Works on all cases"⟩ :
      CriterionScoreData).feedback =
        merge_feedback (relevant_feedbacks (votes_for gradesC3 "Correctness")
          (feedbacks_for gradesC3 "Correctness")
          (median (votes_for gradesC3 "Correctness"))) :=
  C3_mean_score_and_median_feedback.1 gradesC3 rubricA
    ⟨13/3, 5, 260/3,
     [⟨"Correctness", 13/3, 5, "Fully correct solution Works on all cases"⟩],
     "Needs work on edge cases Excellent work overall", "voting",
     "Aggregated from 3 independent graders using median voting (temperature range: 0.3-0.7)"⟩
    (by with_unfolding_all rfl)
    ⟨"Correctness", 13/3, 5, "Fully correct solution Works on all cases"⟩
    (List.mem_singleton.mpr rfl)

/-- The `approved` entry of the processed critique is the raw parsed value
(default `False`), whatever default the reader supplies. -/
theorem optimizer_critique_approved (p d : Json) :
    jGetD (optimizer_critique p) "approved" d =
      jGetD p "approved" (.bool false) := rfl

/-- The `issues_found` entry of the processed critique is the raw parsed
value (default `[]`), whatever default the reader supplies. -/
theorem optimizer_critique_issues (p d : Json) :
    jGetD (optimizer_critique p) "issues_found" d =
      jGetD p "issues_found" (.arr []) := rfl

/-- An Evaluator grade that builds a valid result under `rubricB`. -/
def gradeJson0 : Json :=
  .obj [("final_grade", .obj [("total_score", .num 8), ("total_possible", .num 10),
          ("percentage", .num 80),
          ("overall_feedback", .str "Good solution overall work")]),
        ("breakdown", .arr
          [.obj [("criterion_name", .str "Correctness"), ("points_awarded", .num 4),
                 ("max_points", .num 5), ("feedback", .str "mostly correct")],
           .obj [("criterion_name", .str "Style"), ("points_awarded", .num 4),
                 ("max_points", .num 5), ("feedback", .str "clean enough")]])]

/-- A critique that rejects every grade with one issue. -/
def rejectCritique : Json :=
  .obj [("approved", .bool false), ("issues_found", .arr [.str "overscored"])]

/-- Oracles whose Optimizer always rejects with issues. -/
def rejectingOracles : EOOracles :=
  ⟨.ok gradeJson0, fun _ => .ok rejectCritique, fun _ _ => .ok gradeJson0⟩

/-- Oracles whose Optimizer approves the first critique. -/
def approvingOracles : EOOracles :=
  ⟨.ok gradeJson0,
   fun _ => .ok (.obj [("approved", .bool true), ("issues_found", .arr [])]),
   fun _ _ => .ok gradeJson0⟩

/-- One loop pass on which the Optimizer approves: the loop stops with the
current grade after this single Optimizer call. -/
theorem critique_loop_step_approve (o : EOOracles) (maxIter fuel iteration : ℕ)
    (cur parsed : Json) (hi : iteration < maxIter)
    (hc : o.critiqueFn cur = .ok parsed)
    (ha : jTruthy (jGetD parsed "approved" (.bool false)) = true) :
    critique_loop o maxIter (fuel + 1) iteration cur = (0, 1, .ok cur) := by
  simp only [critique_loop]
  rw [if_pos hi, hc]
  simp only [optimizer_critique_approved, ha, if_true]

/-- One loop pass on which the Optimizer rejects with issues while
iterations remain: the Evaluator refines and the loop continues. -/
theorem critique_loop_step_refine (o : EOOracles) (maxIter fuel iteration : ℕ)
    (cur parsed refined : Json) (hi : iteration < maxIter)
    (hc : o.critiqueFn cur = .ok parsed)
    (hna : jTruthy (jGetD parsed "approved" (.bool false)) = false)
    (hhi : has_issues (optimizer_critique parsed) = true)
    (hlt : iteration < maxIter - 1)
    (hr : o.refineFn cur (optimizer_critique parsed) = .ok refined) :
    critique_loop o maxIter (fuel + 1) iteration cur =
      ((critique_loop o maxIter fuel (iteration + 1) refined).1 + 1,
       (critique_loop o maxIter fuel (iteration + 1) refined).2.1 + 1,
       (critique_loop o maxIter fuel (iteration + 1) refined).2.2) := by
  simp only [critique_loop]
  rw [if_pos hi, hc]
  simp only [optimizer_critique_approved, hna, Bool.false_eq_true, if_false,
    hhi, decide_eq_true hlt, Bool.and_self, if_true]
  rw [hr]

/-- One loop pass on which the Optimizer rejects but no refinement is
allowed (`iteration = max_iterations - 1`): the loop stops with the current
grade. -/
theorem critique_loop_step_stop (o : EOOracles) (maxIter fuel iteration : ℕ)
    (cur parsed : Json) (hi : iteration < maxIter)
    (hc : o.critiqueFn cur = .ok parsed)
    (hna : jTruthy (jGetD parsed "approved" (.bool false)) = false)
    (hge : ¬ iteration < maxIter - 1) :
    critique_loop o maxIter (fuel + 1) iteration cur = (0, 1, .ok cur) := by
  simp only [critique_loop]
  rw [if_pos hi, hc]
  simp only [optimizer_critique_approved, hna, Bool.false_eq_true, if_false,
    decide_eq_false hge, Bool.and_false, if_false]

/-- Claim C2 counterexample: with `max_iterations = 3` and an Optimizer
that always rejects with issues, the workflow issues 2 Evaluator calls, not
the 3 the claim states. -/
theorem C2_counterexample :
    (evaluator_optimizer_grade rejectingOracles requestA 3).evaluatorCalls = 2 ∧
    (evaluator_optimizer_grade rejectingOracles requestA 3).optimizerCalls = 2 ∧
    (2 : ℕ) ≠ 3 :=
  ⟨by with_unfolding_all rfl, by with_unfolding_all rfl, by decide⟩

/-- Claim C2 (corrected): with `max_iterations = 3` and an Optimizer that
returns `approved = false` with a non-empty `issues_found` list on every
critique, exactly 2 Evaluator calls occur (1 initial + 1 refinement) and 2
Optimizer calls — the refinement guard `iteration < max_iterations - 1`
prevents a refinement on the final loop pass, so the loop stops after the
second critique. -/
theorem C2_two_evaluator_calls (o : EOOracles) (req : GradingRequest)
    (hreq : validate_request req = true) (g0 : Json)
    (hg : o.evalGrade = .ok g0) (critiqueOf : Json → Json)
    (refineOf : Json → Json → Json)
    (hcrit : ∀ g, o.critiqueFn g = .ok (critiqueOf g))
    (href : ∀ g c, o.refineFn g c = .ok (refineOf g c))
    (hrej : ∀ g, jTruthy (jGetD (critiqueOf g) "approved" (.bool false)) = false)
    (hiss : ∀ g, 0 < pyLen (jGetD (critiqueOf g) "issues_found" (.arr []))) :
    (evaluator_optimizer_grade o req 3).evaluatorCalls = 2 ∧
    (evaluator_optimizer_grade o req 3).optimizerCalls = 2 ∧
    (evaluator_optimizer_grade o req 3).result =
      build_result (refineOf g0 (optimizer_critique (critiqueOf g0)))
        req.rubric "evaluator_optimizer" "" := by
  have hhi : ∀ g, has_issues (optimizer_critique (critiqueOf g)) = true := by
    intro g
    rw [has_issues, optimizer_critique_approved, optimizer_critique_issues,
      hrej g]
    simp [hiss g]
  set g1 := refineOf g0 (optimizer_critique (critiqueOf g0)) with hg1
  have h2 : critique_loop o 3 2 2 g1 = (0, 1, .ok g1) :=
    critique_loop_step_stop o 3 1 2 g1 (critiqueOf g1) (by omega)
      (hcrit g1) (hrej g1) (by omega)
  have h1 : critique_loop o 3 3 1 g0 = (1, 2, .ok g1) := by
    rw [critique_loop_step_refine o 3 2 1 g0 (critiqueOf g0) g1 (by omega)
      (hcrit g0) (hrej g0) (hhi g0) (by omega) (href g0 _), h2]
  simp only [evaluator_optimizer_grade, hreq, Bool.not_true, Bool.false_eq_true,
    if_false, hg, h1]
  exact ⟨by trivial, by trivial, by trivial⟩

/-- Claim C2 witness: the corrected count applied to concrete
always-rejecting oracles. -/
theorem C2_witness :
    (evaluator_optimizer_grade rejectingOracles requestA 3).evaluatorCalls = 2 := by
  have hiss : ∀ g : Json,
      0 < pyLen (jGetD rejectCritique "issues_found" (.arr [])) :=
    fun _ => by decide
  exact (C2_two_evaluator_calls rejectingOracles requestA
    (by with_unfolding_all decide) gradeJson0 rfl (fun _ => rejectCritique)
    (fun _ _ => gradeJson0) (fun _ => rfl) (fun _ _ => rfl) (fun _ => rfl)
    hiss).1

/-- Claim C9 (confirmed): if the Optimizer approves the first critique,
exactly 1 Evaluator call and 1 Optimizer call occur, `Evaluator.refine` is
never called, and the final result is the initial grade canonicalized by
the Result Builder. -/
theorem C9_first_approval_single_call (o : EOOracles) (req : GradingRequest)
    (maxIter : ℕ) (hm : 2 ≤ maxIter) (hreq : validate_request req = true)
    (g0 : Json) (hg : o.evalGrade = .ok g0) (p : Json)
    (hc : o.critiqueFn g0 = .ok p)
    (ha : jTruthy (jGetD p "approved" (.bool false)) = true) :
    evaluator_optimizer_grade o req maxIter =
      ⟨1, 1, build_result g0 req.rubric "evaluator_optimizer" ""⟩ := by
  obtain ⟨k, rfl⟩ : ∃ k, maxIter = k + 2 := ⟨maxIter - 2, by omega⟩
  have hloop : critique_loop o (k + 2) (k + 2) 1 g0 = (0, 1, .ok g0) :=
    critique_loop_step_approve o (k + 2) (k + 1) 1 g0 p (by omega) hc ha
  simp only [evaluator_optimizer_grade, hreq, Bool.not_true, Bool.false_eq_true,
    if_false, hg, hloop]

/-- Claim C9 witness: the single-call shape on concrete first-approval
oracles. -/
theorem C9_witness :
    evaluator_optimizer_grade approvingOracles requestA 3 =
      ⟨1, 1, build_result gradeJson0 rubricB "evaluator_optimizer" ""⟩ :=
  C9_first_approval_single_call approvingOracles requestA 3 (by decide)
    (by with_unfolding_all decide) gradeJson0 rfl
    (.obj [("approved", .bool true), ("issues_found", .arr [])]) rfl rfl

end AICodeGrader

